import Mathlib

/-!
Shallow embedding of the koa-bouncer validation engine (src/index.js).

The engine validates one named value at a time against a shared mutable
store (`this.vals`).  A `Validator` is a per-name view on that store plus
an `_isOptional` flag; chainable operations either return the validator
(continue the chain) or throw.  We model the mutable world explicitly as a
`Session` (the value store plus the per-name validator objects) and each
chain operation as a function `Session → Outcome`, where an `Outcome`
records both the resulting world state and whether an exception was
thrown, so that properties about the store *at the moment an error is
raised* are expressible.
-/

set_option autoImplicit false

/-- JavaScript values as far as this library manipulates them: `undefined`,
`null`, `NaN`, booleans, (integral) numbers, strings, arrays, and an opaque
object value (used where the source passes a non-primitive such as `this`
as an argument). -/
inductive JSVal where
  | undef
  | nullv
  | nan
  | bool (b : Bool)
  | num (n : Int)
  | str (s : String)
  | arr (elems : List JSVal)
  | obj

/-- Lodash `_.isUndefined`. -/
def JSVal.isUndef : JSVal → Bool
  | .undef => true
  | _ => false

/-- JavaScript truthiness of a value (`x ? … : …`, `a || b`). -/
def jsTruthy : JSVal → Bool
  | .undef => false
  | .nullv => false
  | .nan => false
  | .bool b => b
  | .num n => if n = 0 then false else true
  | .str s => if s.data = [] then false else true
  | .arr _ => true
  | .obj => true

/-- JavaScript `a || b` on values: `a` when truthy, else `b`.  Used for the
`tip || defaultMessage` idiom throughout the source. -/
def tipOr (tip fallback : JSVal) : JSVal :=
  if jsTruthy tip then tip else fallback

mutual

/-- JavaScript string coercion `String(x)` of a value, as performed
implicitly by `RegExp.prototype.test` and by string concatenation. -/
def jsToString : JSVal → String
  | .undef => "undefined"
  | .nullv => "null"
  | .nan => "NaN"
  | .bool b => if b then "true" else "false"
  | .num n => toString n
  | .str s => s
  | .arr xs => String.intercalate "," (jsArrParts xs)
  | .obj => "[object Object]"

/-- Element strings of `Array.prototype.toString` (which is `join(",")`):
`undefined` and `null` elements contribute the empty string. -/
def jsArrParts : List JSVal → List String
  | [] => []
  | .undef :: xs => "" :: jsArrParts xs
  | .nullv :: xs => "" :: jsArrParts xs
  | x :: xs => jsToString x :: jsArrParts xs

end

/-- Lodash `_.isString`. -/
def isStringVal : JSVal → Bool
  | .str _ => true
  | _ => false

/-- Lodash `_.isNumber` (`typeof x === 'number'`; `NaN` is a number). -/
def isNumberVal : JSVal → Bool
  | .num _ => true
  | .nan => true
  | _ => false

/-- Lodash `_.isArray`. -/
def isArrayVal : JSVal → Bool
  | .arr _ => true
  | _ => false

/-- Elements of an array value (only consulted under an `isArrayVal`
guard in the source). -/
def arrElems : JSVal → List JSVal
  | .arr xs => xs
  | _ => []

/-- JavaScript `<=` between values as used on numeric operands: ordinary
integer comparison on numbers, false whenever `NaN` is involved. -/
def jsLe : JSVal → JSVal → Bool
  | .num a, .num b => decide (a ≤ b)
  | _, _ => false

/-- JavaScript `<` between values as used on numeric operands. -/
def jsLt : JSVal → JSVal → Bool
  | .num a, .num b => decide (a < b)
  | _, _ => false

/-- The `validator` dependency's `isInt` at the era this code targets:
a regular-expression test `/^[-+]?[0-9]+$/` (leading zeroes allowed) on
the string coercion of the input. -/
def intShaped (s : String) : Bool :=
  match s.data with
  | '-' :: rest => !rest.isEmpty && rest.all Char.isDigit
  | '+' :: rest => !rest.isEmpty && rest.all Char.isDigit
  | cs => !cs.isEmpty && cs.all Char.isDigit

/-- `v.isInt(x)`: the integer-shape test applied to the coerced value. -/
def v_isInt (x : JSVal) : Bool :=
  intShaped (jsToString x)

/-- Numeric value of a list of decimal digit characters. -/
def digitsToNat (ds : List Char) : Nat :=
  ds.foldl (fun a c => a * 10 + (c.toNat - 48)) 0

/-- Value of the leading run of decimal digits, `none` when there is no
leading digit (the `NaN` case of `parseInt`). -/
def leadingDigits (cs : List Char) : Option Nat :=
  let ds := cs.takeWhile Char.isDigit
  if ds.isEmpty then none else some (digitsToNat ds)

/-- JavaScript whitespace skipped by `parseInt`. -/
def jsWhitespace (c : Char) : Bool :=
  c == ' ' || c == '\t' || c == '\n' || c == '\r' || c == '\x0b' || c == '\x0c'

/-- JavaScript `parseInt(s, 10)`; `none` stands for `NaN`. -/
def jsParseInt (s : String) : Option Int :=
  match s.data.dropWhile jsWhitespace with
  | '-' :: rest => (leadingDigits rest).map (fun n => -(n : Int))
  | '+' :: rest => (leadingDigits rest).map (fun n => (n : Int))
  | cs => (leadingDigits cs).map (fun n => (n : Int))

/-- `parseInt(x, 10)` on a value, as stored back into the value store:
a number on success, `NaN` on failure. -/
def parsedNum (x : JSVal) : JSVal :=
  match jsParseInt (jsToString x) with
  | some n => .num n
  | none => .nan

/-- `isSafeInteger` from the source: `MIN_SAFE_INTEGER <= n <= MAX_SAFE_INTEGER`
(both bounds are `2^53 - 1` in magnitude); false on `NaN`. -/
def isSafeInteger : JSVal → Bool
  | .num n => decide (-(9007199254740991 : Int) ≤ n ∧ n ≤ 9007199254740991)
  | _ => false

/-- The shared mutable value store `this.vals`: name to current value. -/
abbrev Store := List (String × JSVal)

/-- Read `vals[k]`; a missing entry reads as `undefined`, as in JavaScript. -/
def getV : Store → String → JSVal
  | [], _ => .undef
  | (k', v) :: rest, k => if k' = k then v else getV rest k

/-- Write `vals[k] = v`. -/
def setV : Store → String → JSVal → Store
  | [], k, v => [(k, v)]
  | (k', v') :: rest, k, v =>
      if k' = k then (k', v) :: rest else (k', v') :: setV rest k v

/-- Mutable state of one `Validator` object: the `_isOptional` flag and the
`type` tag passed at construction. -/
structure VObj where
  isOpt : Bool
  vtype : Option String
  deriving DecidableEq

/-- Lookup in the session's `validators` map. -/
def lookupVObj : List (String × VObj) → String → Option VObj
  | [], _ => none
  | (k', o) :: rest, k => if k' = k then some o else lookupVObj rest k

/-- Set the `_isOptional` flag of the validator object for `k` (the object
exists whenever a method is invoked on it in the source). -/
def setVOpt : List (String × VObj) → String → Bool → List (String × VObj)
  | [], _, _ => []
  | (k', o) :: rest, k, b =>
      if k' = k then (k', { o with isOpt := b }) :: rest
      else (k', o) :: setVOpt rest k b

/-- The mutable world of one validation session: the shared value store
and the per-name validator objects (`const validators = new Map()`). -/
structure Session where
  vals : Store
  validators : List (String × VObj)

def Session.getVal (s : Session) (k : String) : JSVal :=
  getV s.vals k

def Session.setVal (s : Session) (k : String) (v : JSVal) : Session :=
  { s with vals := setV s.vals k v }

def Session.getFlag (s : Session) (k : String) : Bool :=
  match lookupVObj s.validators k with
  | some o => o.isOpt
  | none => false

def Session.setFlag (s : Session) (k : String) (b : Bool) : Session :=
  { s with validators := setVOpt s.validators k b }

/-- Faults thrown by the engine: `ValidationError(key, message)`, the
`AssertionError` of `better-assert`, and any other JavaScript fault
(tagged opaquely). -/
inductive JSErr where
  | validation (key : Option String) (message : JSVal)
  | assertionErr
  | otherErr (tag : String)

/-- `ex instanceof ValidationError`. -/
def JSErr.isValidation : JSErr → Bool
  | .validation _ _ => true
  | _ => false

/-- Result of running a chain step: either the chain continues with the
world state `s`, or a fault was thrown while the world was in state `s`
(the store mutations made before the throw are retained in `s`). -/
inductive Outcome where
  | ok (s : Session)
  | thrown (s : Session) (e : JSErr)

/-- World state carried by an outcome. -/
def Outcome.sess : Outcome → Session
  | .ok s => s
  | .thrown s _ => s

/-- Sequencing of chain steps: a thrown fault aborts the rest of the chain. -/
def Outcome.andThen : Outcome → (Session → Outcome) → Outcome
  | .ok s, f => f s
  | .thrown s e, _ => .thrown s e

/-- `this.throwError(tip)`: throw `ValidationError(this.key, tip || 'Invalid value for ' + this.key)`. -/
def Session.throwErr (s : Session) (k : String) (tip : JSVal) : Outcome :=
  .thrown s (.validation (some k) (tipOr tip (.str ("Invalid value for " ++ k))))

/-- `this.isOptional()`: clears the `_isOptional` flag when it is set but
the value has become present, and returns the (possibly cleared) flag. -/
def isOptionalStep (s : Session) (k : String) : Bool × Session :=
  if s.getFlag k && !(s.getVal k).isUndef then (false, s.setFlag k false)
  else (s.getFlag k, s)

/-- `optionalFn` / `Validator.addMethod`: every registered chain operation
is wrapped so that it no-ops (returning the validator) when `isOptional()`
reports true, and otherwise runs its own logic on the post-check state. -/
def optionalWrap (fn : Session → Outcome) (s : Session) (k : String) : Outcome :=
  let r := isOptionalStep s k
  if r.1 then .ok r.2 else fn r.2

/-!  Built-in chain operations.  Each one is translated from the
correspondingly named method in src/index.js; methods registered through
`Validator.addMethod` are wrapped with `optionalWrap`, while `required`
and `optional` are plain prototype methods and are not. -/

/-- `required(tip)`: throws when the value is `undefined`. -/
def required (s : Session) (k : String) (tip : JSVal) : Outcome :=
  if (s.getVal k).isUndef then
    s.throwErr k (tipOr tip (.str (k ++ " must not be empty")))
  else .ok s

/-- `optional()`: arms the `_isOptional` flag when the value is `undefined`. -/
def Session.optional (s : Session) (k : String) : Outcome :=
  if (s.getVal k).isUndef then .ok (s.setFlag k true) else .ok s

/-- `defaultTo(valueOrFunction)`: when the value is `undefined`, replace it
by the given value or by the result of the given function; always writes
the store entry back. -/
def defaultTo (s : Session) (k : String) (vof : JSVal ⊕ (Unit → JSVal)) : Outcome :=
  optionalWrap (fun s0 =>
    let val0 := s0.getVal k
    let val1 :=
      if (s0.getVal k).isUndef then
        match vof with
        | .inr f => f ()
        | .inl v => v
      else val0
    .ok (s0.setVal k val1)) s k

/-- `gt(otherValue, tip)`: asserts both operands are numbers, then throws a
`ValidationError` when `val <= otherValue`. -/
def gt (s : Session) (k : String) (other tip : JSVal) : Outcome :=
  optionalWrap (fun s0 =>
    if !isNumberVal (s0.getVal k) then .thrown s0 .assertionErr
    else if !isNumberVal other then .thrown s0 .assertionErr
    else if jsLe (s0.getVal k) other then
      s0.throwErr k (tipOr tip (.str ("Invalid " ++ k)))
    else .ok s0) s k

/-- `gte(otherValue, tip)`: asserts both operands are numbers, then throws a
`ValidationError` when `val < otherValue`. -/
def gte (s : Session) (k : String) (other tip : JSVal) : Outcome :=
  optionalWrap (fun s0 =>
    if !isNumberVal (s0.getVal k) then .thrown s0 .assertionErr
    else if !isNumberVal other then .thrown s0 .assertionErr
    else if jsLt (s0.getVal k) other then
      s0.throwErr k (tipOr tip (.str ("Invalid " ++ k)))
    else .ok s0) s k

/-- `toInt(tip)`: rejects values that are not integer-shaped, parses, checks
the safe-integer range, and commits the parsed number to the store. -/
def toInt (s : Session) (k : String) (tip : JSVal) : Outcome :=
  optionalWrap (fun s0 =>
    if !v_isInt (s0.getVal k) then
      s0.throwErr k (tipOr tip (.str (k ++ " must be an integer")))
    else
      let numv := parsedNum (s0.getVal k)
      if !isSafeInteger numv then
        s0.throwErr k (tipOr tip (.str (k ++ " is out of integer range")))
      else .ok (s0.setVal k numv)) s k

/-- `toInts(tip)`: asserts the value is an array, rejects unless every
element is integer-shaped, parses them all, rejects unless every parsed
number is a safe integer, and only then commits the parsed array. -/
def toInts (s : Session) (k : String) (tip : JSVal) : Outcome :=
  optionalWrap (fun s0 =>
    if !isArrayVal (s0.getVal k) then .thrown s0 .assertionErr
    else if !(arrElems (s0.getVal k)).all v_isInt then
      s0.throwErr k (tipOr tip (.str (k ++ " must be an array of integers")))
    else
      let results := (arrElems (s0.getVal k)).map parsedNum
      if !results.all isSafeInteger then
        s0.throwErr k (tipOr tip (.str (k ++ " must not contain numbers out of integer range")))
      else .ok (s0.setVal k (.arr results))) s k

/-- `tap(f)`: runs the user function on the current value; a thrown
`ValidationError` is caught and replaced by `this.throwError()` (the
default message), any other fault is re-thrown unchanged, and a normal
return value is committed to the store. -/
def tap (s : Session) (k : String) (f : JSVal → Except JSErr JSVal) : Outcome :=
  optionalWrap (fun s0 =>
    match f (s0.getVal k) with
    | .error e =>
        if e.isValidation then s0.throwErr k .undef
        else .thrown s0 e
    | .ok r => .ok (s0.setVal k r)) s k

/-- `isString(tip)`: throws when the value is not a string. -/
def isString (s : Session) (k : String) (tip : JSVal) : Outcome :=
  optionalWrap (fun s0 =>
    if !isStringVal (s0.getVal k) then
      s0.throwErr k (tipOr tip (.str (k ++ " must be a string")))
    else .ok s0) s k

/-- `isAlpha(tip)`: requires a string, then tests `/^[a-z]*$/i`. -/
def isAlpha (s : Session) (k : String) (tip : JSVal) : Outcome :=
  optionalWrap (fun s0 =>
    let tip2 := tipOr tip (.str (k ++ " must only contain chars a-z"))
    (isString s0 k tip2).andThen (fun s1 =>
      if !(jsToString (s1.getVal k)).data.all Char.isAlpha then
        s1.throwErr k tip2
      else .ok s1)) s k

/-- `isAlphanumeric(tip)`: requires a string (the source passes `this` as
the tip of that inner check), then tests `/^[a-z0-9]*$/i`. -/
def isAlphanumeric (s : Session) (k : String) (tip : JSVal) : Outcome :=
  optionalWrap (fun s0 =>
    let tip2 := tipOr tip (.str (k ++ " must must be alphanumeric (a-z, 0-9)"))
    (isString s0 k JSVal.obj).andThen (fun s1 =>
      if !(jsToString (s1.getVal k)).data.all Char.isAlphanum then
        s1.throwErr k tip2
      else .ok s1)) s k

/-- `isNumeric(tip)`: requires a string, then tests `/^[0-9]*$/`. -/
def isNumeric (s : Session) (k : String) (tip : JSVal) : Outcome :=
  optionalWrap (fun s0 =>
    let tip2 := tipOr tip (.str (k ++ " must must only contain numbers"))
    (isString s0 k tip2).andThen (fun s1 =>
      if !(jsToString (s1.getVal k)).data.all Char.isDigit then
        s1.throwErr k tip2
      else .ok s1)) s k

/-- `isAscii(tip)`: tests `/^[\x00-\x7F]*$/` directly against the value
(`RegExp.test` coerces its argument to a string; there is no string
type check in this method). -/
def isAscii (s : Session) (k : String) (tip : JSVal) : Outcome :=
  optionalWrap (fun s0 =>
    let tip2 := tipOr tip (.str (k ++ " must contain only ASCII chars"))
    if !(jsToString (s0.getVal k)).data.all (fun c => c.toNat ≤ 127) then
      s0.throwErr k tip2
    else .ok s0) s k

/-- `isBase64(tip)`: requires a string, accepts the empty string outright,
and otherwise consults the external `v.isBase64` checker (modelled as a
parameter, since it lives in the `validator` dependency). -/
def isBase64 (checker : String → Bool) (s : Session) (k : String) (tip : JSVal) : Outcome :=
  optionalWrap (fun s0 =>
    let tip2 := tipOr tip (.str (k ++ " must be base64 encoded"))
    (isString s0 k tip2).andThen (fun s1 =>
      if (jsToString (s1.getVal k)).length = 0 then .ok s1
      else if !checker (jsToString (s1.getVal k)) then
        s1.throwErr k tip2
      else .ok s1)) s k

/-- `isEmail(tip)`: requires a string, then consults the external
`v.isEmail` checker (modelled as a parameter). -/
def isEmail (checker : String → Bool) (s : Session) (k : String) (tip : JSVal) : Outcome :=
  optionalWrap (fun s0 =>
    let tip2 := tipOr tip (.str (k ++ " must be a valid email address"))
    (isString s0 k tip2).andThen (fun s1 =>
      if !checker (jsToString (s1.getVal k)) then
        s1.throwErr k tip2
      else .ok s1)) s k

/-- `isHexColor(tip)`: requires a string, then consults the external
`v.isHexColor` checker (modelled as a parameter). -/
def isHexColor (checker : String → Bool) (s : Session) (k : String) (tip : JSVal) : Outcome :=
  optionalWrap (fun s0 =>
    let tip2 := tipOr tip (.str (k ++ " must be a hex color"))
    (isString s0 k tip2).andThen (fun s1 =>
      if !checker (jsToString (s1.getVal k)) then
        s1.throwErr k tip2
      else .ok s1)) s k

/-- Hexadecimal digit, either case (`[0-9A-F]` under the `i` flag). -/
def hexDigit (c : Char) : Bool :=
  c.isDigit || ('A' ≤ c && c ≤ 'F') || ('a' ≤ c && c ≤ 'f')

/-- Split a character list at every hyphen (the shape test of the UUID
patterns, whose groups contain only hex digits and hence no hyphen). -/
def splitDash : List Char → List (List Char)
  | [] => [[]]
  | '-' :: rest => [] :: splitDash rest
  | c :: rest =>
      match splitDash rest with
      | g :: gs => (c :: g) :: gs
      | [] => [[c]]

/-- Does a group begin with the given character. -/
def headIs (g : List Char) (x : Char) : Bool :=
  match g with
  | c :: _ => c == x
  | [] => false

/-- Does a group begin with `[89AB]` under the case-insensitive flag. -/
def headIn89AB (g : List Char) : Bool :=
  match g with
  | c :: _ => c == '8' || c == '9' || c == 'A' || c == 'B' || c == 'a' || c == 'b'
  | [] => false

/-- Shared shape of all four UUID patterns: five hyphen-separated groups of
hex digits with lengths 8-4-4-4-12. -/
def uuidGroupsOk (a b c d e : List Char) : Bool :=
  a.length == 8 && b.length == 4 && c.length == 4 && d.length == 4 && e.length == 12 &&
  (a ++ b ++ c ++ d ++ e).all hexDigit

/-- The `all` UUID pattern `/^[0-9A-F]{8}-[0-9A-F]{4}-[0-9A-F]{4}-[0-9A-F]{4}-[0-9A-F]{12}$/i`. -/
def uuidAll (s : String) : Bool :=
  match splitDash s.data with
  | [a, b, c, d, e] => uuidGroupsOk a b c d e
  | _ => false

/-- The `v3` UUID pattern: the third group begins with `3`. -/
def uuidV3 (s : String) : Bool :=
  match splitDash s.data with
  | [a, b, c, d, e] => uuidGroupsOk a b c d e && headIs c '3'
  | _ => false

/-- The `v4` UUID pattern: the third group begins with `4`, the fourth with
`[89AB]` (either case). -/
def uuidV4 (s : String) : Bool :=
  match splitDash s.data with
  | [a, b, c, d, e] => uuidGroupsOk a b c d e && headIs c '4' && headIn89AB d
  | _ => false

/-- The `v5` UUID pattern: the third group begins with `5`, the fourth with
`[89AB]` (either case). -/
def uuidV5 (s : String) : Bool :=
  match splitDash s.data with
  | [a, b, c, d, e] => uuidGroupsOk a b c d e && headIs c '5' && headIn89AB d
  | _ => false

/-- The literal version tags accepted by `isUuid`. -/
def uuidTags : List String := ["v3", "v4", "v5", "all"]

/-- The `re` lookup table of `isUuid`; `none` models `re[version]` being
`undefined`, in which case calling `.test` on it is a `TypeError`. -/
def uuidRe : JSVal → Option (String → Bool)
  | .str "v3" => some uuidV3
  | .str "v4" => some uuidV4
  | .str "v5" => some uuidV5
  | .str "all" => some uuidAll
  | _ => none

/-- JavaScript strict equality of a value against a string literal. -/
def jsIsStr (x : JSVal) (t : String) : Bool :=
  match x with
  | .str s => s == t
  | _ => false

/-- `isUuid(version, tip)` with its argument overloading: a lone string
argument that is not a version tag becomes the tip and the version
defaults to `all`; no arguments also default the version to `all`. -/
def isUuid (s : Session) (k : String) (version tip : JSVal) : Outcome :=
  optionalWrap (fun s0 =>
    let vt :=
      if isStringVal version && tip.isUndef then
        if !uuidTags.contains (jsToString version) then (JSVal.str "all", version)
        else (version, tip)
      else if version.isUndef && tip.isUndef then (JSVal.str "all", tip)
      else (version, tip)
    let tip3 := tipOr vt.2
      (.str (k ++ " must be a UUID" ++ (if jsIsStr vt.1 "all" then "" else jsToString vt.1)))
    match uuidRe vt.1 with
    | some patTest =>
        if !patTest (jsToString (s0.getVal k)) then s0.throwErr k tip3
        else .ok s0
    | none => .thrown s0 (.otherErr "TypeError")) s k

/-!  Session adapter: the middleware attaches `validateParam`,
`validateQuery` and `validateBody` to the context; each keeps a session
cache of validators keyed by name and seeds the store entry on first
request (from the already-set store value when present, else from the
raw source accessor). -/

/-- Raw input sources of one request, as read by the default
`getParams` / `getQuery` / `getBody` accessors. -/
structure Ctx where
  params : Store
  query : Store
  body : Store

/-- `this.validateParam(key)`. -/
def validateParam (ctx : Ctx) (s : Session) (k : String) : VObj × Session :=
  match lookupVObj s.validators k with
  | some vo => (vo, s)
  | none =>
      let seed := if (s.getVal k).isUndef then getV ctx.params k else s.getVal k
      let vo : VObj := { isOpt := false, vtype := none }
      (vo, { vals := setV s.vals k seed, validators := s.validators ++ [(k, vo)] })

/-- `this.validateQuery(key)`. -/
def validateQuery (ctx : Ctx) (s : Session) (k : String) : VObj × Session :=
  match lookupVObj s.validators k with
  | some vo => (vo, s)
  | none =>
      let seed := if (s.getVal k).isUndef then getV ctx.query k else s.getVal k
      let vo : VObj := { isOpt := false, vtype := none }
      (vo, { vals := setV s.vals k seed, validators := s.validators ++ [(k, vo)] })

/-- `this.validateBody(key)`: like the other two but tagged `type: 'body'`. -/
def validateBody (ctx : Ctx) (s : Session) (k : String) : VObj × Session :=
  match lookupVObj s.validators k with
  | some vo => (vo, s)
  | none =>
      let seed := if (s.getVal k).isUndef then getV ctx.body k else s.getVal k
      let vo : VObj := { isOpt := false, vtype := some "body" }
      (vo, { vals := setV s.vals k seed, validators := s.validators ++ [(k, vo)] })

/-!  Concrete fixtures used by the witness and counterexample theorems. -/

/-- A registered operation used as a probe: it reports the state it was
invoked on by throwing. -/
def probeFn : Session → Outcome := fun s => .thrown s .assertionErr

/-- One validator for `x`, flag armed, value absent. -/
def skipFixture : Session := ⟨[], [("x", ⟨true, none⟩)]⟩

/-- One validator for `x`, flag armed, value present. -/
def clearFixture : Session := ⟨[("x", JSVal.num 3)], [("x", ⟨true, none⟩)]⟩

/-- One fresh (flag not armed) validator for `x`, value absent. -/
def chainState : Session := ⟨[], [("x", ⟨false, none⟩)]⟩

/-- The chain `.optional().defaultTo(5).gt(0)` of the spec's re-arming
example. -/
def optDefaultGtChain (s : Session) (k : String) : Outcome :=
  ((s.optional k).andThen (fun s1 => defaultTo s1 k (Sum.inl (JSVal.num 5)))).andThen
    (fun s2 => gt s2 k (JSVal.num 0) JSVal.undef)

/-- A request whose three sources each carry a value named `x`. -/
def seedCtx : Ctx :=
  { params := [("x", .str "fromParams")]
    query := [("x", .str "fromQuery")]
    body := [("x", .str "fromBody")] }

/-- The session after a first `validateBody('x')` on `seedCtx`. -/
def seededSession : Session := (validateBody seedCtx ⟨[], []⟩ "x").2

/-- A validator for `xs` holding the array `["1", "x", "3"]`. -/
def intsFixture : Session := ⟨[("xs", .arr [.str "1", .str "x", .str "3"])], [("xs", ⟨false, none⟩)]⟩

/-- A validator for `x` holding the string `"v"`. -/
def tapFixture : Session := ⟨[("x", .str "v")], [("x", ⟨false, none⟩)]⟩

/-- A user function that throws a `ValidationError` with its own message. -/
def tapThrower : JSVal → Except JSErr JSVal :=
  fun _ => .error (.validation none (.str "inner message"))

/-- The raw request of the end-to-end example: body `{age: "17"}`. -/
def ageCtx : Ctx := { params := [], query := [], body := [("age", .str "17")] }

/-- The session after `validateBody('age')` on `ageCtx`. -/
def ageSession : Session := (validateBody ageCtx ⟨[], []⟩ "age").2

/-- The chain `.required().toInt().gte(18)` run on `ageSession`. -/
def ageOutcome : Outcome :=
  ((required ageSession "age" .undef).andThen (fun s1 => toInt s1 "age" .undef)).andThen
    (fun s2 => gte s2 "age" (.num 18) .undef)

/-- The world state at the moment the `gte` check throws. -/
def ageRaisedState : Session := ⟨[("age", .num 17)], [("age", ⟨false, some "body"⟩)]⟩

/-- A validator for `x` holding a valid (v3) UUID string. -/
def uuidStrFixture : Session :=
  ⟨[("x", .str "A987FBC9-4BED-3078-CF07-9141BA07C9F3")], [("x", ⟨false, none⟩)]⟩

/-- A validator for `x` holding the non-string value `5`. -/
def numValFixture : Session := ⟨[("x", .num 5)], [("x", ⟨false, none⟩)]⟩

/-- A validator for `x` holding a singleton array whose string coercion is
a valid UUID. -/
def arrUuidFixture : Session :=
  ⟨[("x", .arr [.str "A987FBC9-4BED-3078-CF07-9141BA07C9F3"])], [("x", ⟨false, none⟩)]⟩

/-- A validator for `x` holding the empty string. -/
def emptyStrFixture : Session := ⟨[("x", .str "")], [("x", ⟨false, none⟩)]⟩

/-- An external format checker that rejects every string. -/
def rejectAllCk : String → Bool := fun _ => false

/-!  Helper lemmas about the state primitives. -/

theorem Session.getVal_setFlag (s : Session) (k k' : String) (b : Bool) :
    (s.setFlag k b).getVal k' = s.getVal k' := rfl

theorem lookupVObj_setVOpt (l : List (String × VObj)) (k : String) (b : Bool) :
    lookupVObj (setVOpt l k b) k = (lookupVObj l k).map (fun o => { o with isOpt := b }) := by
  induction l with
  | nil => rfl
  | cons p rest ih =>
      obtain ⟨k', o⟩ := p
      by_cases h : k' = k <;> simp [setVOpt, lookupVObj, h, ih]

theorem Session.getFlag_setFlag (s : Session) (k : String) (b : Bool) (vo : VObj)
    (hc : lookupVObj s.validators k = some vo) :
    (s.setFlag k b).getFlag k = b := by
  simp [Session.getFlag, Session.setFlag, lookupVObj_setVOpt, hc]

theorem jsTruthy_str_append (a b : String) (h : b.data ≠ []) :
    jsTruthy (.str (a ++ b)) = true := by
  simp [jsTruthy, String.data_append, List.append_eq_nil, h]

theorem tipOr_collapse (tip d fb : JSVal) (hd : jsTruthy d = true) :
    tipOr (tipOr tip d) fb = tipOr tip d := by
  unfold tipOr
  cases h : jsTruthy tip <;> simp [h, hd]

/-!  Claim theorems. -/

/-- C1: every chain operation registered through `Validator.addMethod`,
invoked while the optional flag is set: when the stored value is still
absent the operation is a no-op returning the validator with store and
flag unchanged; when the value has become present the flag is cleared and
the operation's own logic runs on the cleared state. -/
theorem registry_optional_skip_and_rearm (fn : Session → Outcome) (s : Session) (k : String) :
    (s.getFlag k = true → s.getVal k = JSVal.undef → optionalWrap fn s k = .ok s) ∧
    (s.getFlag k = true → s.getVal k ≠ JSVal.undef →
      optionalWrap fn s k = fn (s.setFlag k false)) := by
  constructor
  · intro hf hv
    simp [optionalWrap, isOptionalStep, hf, hv, JSVal.isUndef]
  · intro hf hv
    have hu : (s.getVal k).isUndef = false := by
      cases h : s.getVal k
      case undef => exact absurd h hv
      all_goals rfl
    simp [optionalWrap, isOptionalStep, hf, hu]

theorem registry_optional_skip_and_rearm_witness :
    optionalWrap probeFn skipFixture "x" = .ok skipFixture ∧
    optionalWrap probeFn clearFixture "x" = probeFn (clearFixture.setFlag "x" false) :=
  ⟨(registry_optional_skip_and_rearm probeFn skipFixture "x").1 rfl rfl,
   (registry_optional_skip_and_rearm probeFn clearFixture "x").2 rfl
     (by simp [clearFixture, Session.getVal, getV])⟩

/-- C2 counterexample: with the value absent, running
`.optional().defaultTo(5).gt(0)` leaves the stored value `undefined` — it
does not become `5`, because `defaultTo` is itself registered through the
optional-aware registry and is skipped. -/
theorem optional_defaultTo_counterexample :
    (optDefaultGtChain chainState "x").sess.getVal "x" = JSVal.undef ∧
    JSVal.undef ≠ JSVal.num 5 :=
  ⟨rfl, fun h => JSVal.noConfusion h⟩

/-- C2 amended: with the value absent, `.optional()` arms the flag and
both `.defaultTo(5)` and `.gt(0)` are then skipped (each is registered
through the optional-aware registry and the value is still absent), so
the chain returns without raising and the store is untouched. -/
theorem optional_defaultTo_chain_skips (s : Session) (k : String) (vo : VObj)
    (hc : lookupVObj s.validators k = some vo) (hv : s.getVal k = JSVal.undef) :
    optDefaultGtChain s k = .ok (s.setFlag k true) := by
  have hval1 : (s.setFlag k true).getVal k = JSVal.undef := hv
  have hflag1 : (s.setFlag k true).getFlag k = true := Session.getFlag_setFlag s k true vo hc
  simp [optDefaultGtChain, Session.optional, hv, JSVal.isUndef, Outcome.andThen,
    defaultTo, gt, optionalWrap, isOptionalStep, hflag1, hval1]

theorem optional_defaultTo_chain_skips_witness :
    optDefaultGtChain chainState "x" = .ok (chainState.setFlag "x" true) :=
  optional_defaultTo_chain_skips chainState "x" ⟨false, none⟩ rfl rfl

/-- C3: once a validator is cached for a name, every later lookup —
through any of the three source-specific functions — returns that cached
validator object and leaves the session (store included) unchanged, so
the source requested later is ignored and accumulated transformations of
the stored value stay visible. -/
theorem validator_cache_keyed_by_name (ctx : Ctx) (s : Session) (k : String) (vo : VObj)
    (hc : lookupVObj s.validators k = some vo) :
    validateParam ctx s k = (vo, s) ∧ validateQuery ctx s k = (vo, s) ∧
    validateBody ctx s k = (vo, s) := by
  refine ⟨?_, ?_, ?_⟩ <;> simp [validateParam, validateQuery, validateBody, hc]

theorem validator_cache_keyed_by_name_witness :
    validateParam seedCtx seededSession "x" = (⟨false, some "body"⟩, seededSession) ∧
    validateQuery seedCtx seededSession "x" = (⟨false, some "body"⟩, seededSession) ∧
    validateBody seedCtx seededSession "x" = (⟨false, some "body"⟩, seededSession) :=
  validator_cache_keyed_by_name seedCtx seededSession "x" ⟨false, some "body"⟩ rfl

/-- C4: `toInts` is all-or-nothing on an array value: if some element is
not integer-shaped, or some parsed element is outside the safe-integer
range, it throws a `ValidationError` with the store untouched; when every
element parses to a safe integer the store entry becomes the parsed
array. -/
theorem toInts_all_or_nothing (s : Session) (k : String) (elems : List JSVal) (tip : JSVal)
    (hv : s.getVal k = JSVal.arr elems) (hf : s.getFlag k = false) :
    (elems.all v_isInt = false →
      toInts s k tip = .thrown s (.validation (some k)
        (tipOr tip (.str (k ++ " must be an array of integers"))))) ∧
    (elems.all v_isInt = true → (elems.map parsedNum).all isSafeInteger = false →
      toInts s k tip = .thrown s (.validation (some k)
        (tipOr tip (.str (k ++ " must not contain numbers out of integer range"))))) ∧
    (elems.all v_isInt = true → (elems.map parsedNum).all isSafeInteger = true →
      toInts s k tip = .ok (s.setVal k (.arr (elems.map parsedNum)))) := by
  have h1 : jsTruthy (.str (k ++ " must be an array of integers")) = true :=
    jsTruthy_str_append k _ (by simp)
  have h2 : jsTruthy (.str (k ++ " must not contain numbers out of integer range")) = true :=
    jsTruthy_str_append k _ (by simp)
  refine ⟨?_, ?_, ?_⟩
  · intro ha
    simp [toInts, optionalWrap, isOptionalStep, hf, hv, arrElems, isArrayVal, ha,
      Session.throwErr, tipOr_collapse _ _ _ h1]
  · intro ha hb
    simp [toInts, optionalWrap, isOptionalStep, hf, hv, arrElems, isArrayVal, ha, hb,
      Session.throwErr, tipOr_collapse _ _ _ h2]
  · intro ha hb
    simp [toInts, optionalWrap, isOptionalStep, hf, hv, arrElems, isArrayVal, ha, hb]

theorem toInts_all_or_nothing_witness :
    toInts intsFixture "xs" JSVal.undef = .thrown intsFixture (.validation (some "xs")
      (.str "xs must be an array of integers")) :=
  (toInts_all_or_nothing intsFixture "xs" [.str "1", .str "x", .str "3"] JSVal.undef
    rfl rfl).1 rfl

/-- C5: `tap` maps a `ValidationError` thrown by the user function to a
fresh `ValidationError` for this name carrying the default message (the
inner message is discarded), re-throws any other fault unchanged, and
commits a normal return value to the store. -/
theorem tap_error_classification (s : Session) (k : String) (f : JSVal → Except JSErr JSVal)
    (hf : s.getFlag k = false) :
    (∀ k0 m0, f (s.getVal k) = .error (.validation k0 m0) →
      tap s k f = .thrown s (.validation (some k) (.str ("Invalid value for " ++ k)))) ∧
    (∀ e, f (s.getVal k) = .error e → e.isValidation = false → tap s k f = .thrown s e) ∧
    (∀ r, f (s.getVal k) = .ok r → tap s k f = .ok (s.setVal k r)) := by
  refine ⟨?_, ?_, ?_⟩
  · intro k0 m0 h
    simp [tap, optionalWrap, isOptionalStep, hf, h, JSErr.isValidation,
      Session.throwErr, tipOr, jsTruthy]
  · intro e h he
    simp [tap, optionalWrap, isOptionalStep, hf, h, he]
  · intro r h
    simp [tap, optionalWrap, isOptionalStep, hf, h]

theorem tap_error_classification_witness :
    tap tapFixture "x" tapThrower =
      .thrown tapFixture (.validation (some "x") (.str "Invalid value for x")) :=
  (tap_error_classification tapFixture "x" tapThrower rfl).1 none (.str "inner message") rfl

/-- C6: on the session seeded from body `{age: "17"}`, the chain
`.required().toInt().gte(18)` throws a `ValidationError` named `age`, and
at the moment it is thrown the store entry for `age` holds the integer
`17` (the `toInt` conversion was committed before the failing check). -/
theorem age_chain_end_to_end :
    ageOutcome = .thrown ageRaisedState (.validation (some "age") (.str "Invalid age")) ∧
    ageRaisedState.getVal "age" = .num 17 :=
  ⟨rfl, rfl⟩

/-- C7 counterexample: `.isUuid('')` passes a lone string argument that is
not a version tag, yet the empty string is falsy, so `tip || default`
discards it and the thrown failure carries the default message, not the
argument — the argument is not used as the custom failure message. -/
theorem isUuid_empty_string_counterexample :
    isUuid tapFixture "x" (.str "") JSVal.undef =
      .thrown tapFixture (.validation (some "x") (.str "x must be a UUID")) ∧
    JSVal.str "x must be a UUID" ≠ JSVal.str "" :=
  ⟨rfl, by simp⟩

/-- C7 amended: `isUuid` overloading — no arguments tests the any-version
pattern; a lone version tag tests that version's pattern; a lone non-tag
string defaults the version to `all` and, when non-empty (truthy),
becomes the custom failure message, while an empty-string argument is
falsy and the default `all`-version message is used instead. -/
theorem isUuid_arg_overloading (s : Session) (k : String) (hf : s.getFlag k = false) :
    (isUuid s k JSVal.undef JSVal.undef =
      if uuidAll (jsToString (s.getVal k)) then .ok s
      else .thrown s (.validation (some k) (.str (k ++ " must be a UUID")))) ∧
    (isUuid s k (.str "v4") JSVal.undef =
      if uuidV4 (jsToString (s.getVal k)) then .ok s
      else .thrown s (.validation (some k) (.str (k ++ " must be a UUIDv4")))) ∧
    (∀ m : String, uuidTags.contains m = false → m.data ≠ [] →
      isUuid s k (.str m) JSVal.undef =
        if uuidAll (jsToString (s.getVal k)) then .ok s
        else .thrown s (.validation (some k) (.str m))) ∧
    (isUuid s k (.str "") JSVal.undef =
      if uuidAll (jsToString (s.getVal k)) then .ok s
      else .thrown s (.validation (some k) (.str (k ++ " must be a UUID")))) := by
  refine ⟨?_, ?_, ?_, ?_⟩
  · have hA : ((k ++ " must be a UUID") ++ "" : String) = k ++ " must be a UUID" :=
      String.append_empty _
    have hT : jsTruthy (.str (k ++ " must be a UUID")) = true :=
      jsTruthy_str_append k _ (by simp)
    cases h : uuidAll (jsToString (s.getVal k)) <;>
      simp [isUuid, optionalWrap, isOptionalStep, hf, isStringVal, JSVal.isUndef, jsIsStr,
        uuidRe, hA, Session.throwErr, tipOr, jsTruthy, hT, h]
  · have hB : ((k ++ " must be a UUID") ++ "v4" : String) = k ++ " must be a UUIDv4" := by
      rw [String.append_assoc]; rfl
    have hT : jsTruthy (.str (k ++ " must be a UUIDv4")) = true :=
      jsTruthy_str_append k _ (by simp)
    cases h : uuidV4 (jsToString (s.getVal k)) <;>
      simp [isUuid, optionalWrap, isOptionalStep, hf, isStringVal, JSVal.isUndef, jsIsStr,
        jsToString, uuidTags, uuidRe, hB, Session.throwErr, tipOr, jsTruthy, hT, h]
  · intro m hm1 hm2
    have hTm : jsTruthy (.str m) = true := by simp [jsTruthy, hm2]
    have hm1' : m ∉ uuidTags := by simpa using hm1
    cases h : uuidAll (jsToString (s.getVal k)) <;>
      simp [isUuid, optionalWrap, isOptionalStep, hf, isStringVal, JSVal.isUndef, jsIsStr,
        jsToString, hm1', uuidRe, Session.throwErr, tipOr, hTm, h]
  · have hA : ((k ++ " must be a UUID") ++ "" : String) = k ++ " must be a UUID" :=
      String.append_empty _
    have hT : jsTruthy (.str (k ++ " must be a UUID")) = true :=
      jsTruthy_str_append k _ (by simp)
    cases h : uuidAll (jsToString (s.getVal k)) <;>
      simp [isUuid, optionalWrap, isOptionalStep, hf, isStringVal, JSVal.isUndef, jsIsStr,
        jsToString, uuidTags, uuidRe, hA, Session.throwErr, tipOr, jsTruthy, hT, h]

theorem isUuid_arg_overloading_witness :
    isUuid uuidStrFixture "x" JSVal.undef JSVal.undef = .ok uuidStrFixture ∧
    isUuid uuidStrFixture "x" (.str "v4") JSVal.undef =
      .thrown uuidStrFixture (.validation (some "x") (.str "x must be a UUIDv4")) ∧
    isUuid tapFixture "x" (.str "not a uuid") JSVal.undef =
      .thrown tapFixture (.validation (some "x") (.str "not a uuid")) ∧
    isUuid tapFixture "x" (.str "") JSVal.undef =
      .thrown tapFixture (.validation (some "x") (.str "x must be a UUID")) := by
  have h := isUuid_arg_overloading uuidStrFixture "x" rfl
  have h2 := isUuid_arg_overloading tapFixture "x" rfl
  refine ⟨?_, ?_, ?_, ?_⟩
  · rw [h.1]; rfl
  · rw [h.2.1]; rfl
  · rw [h2.2.2.1 "not a uuid" rfl (by simp)]; rfl
  · rw [h2.2.2.2]; rfl

/-- C8 counterexample: `isAscii` and `isUuid` do not require a string
first — on the non-string values `5` and `["A987FBC9-…"]` they return the
validator without raising (the regex is applied to the string coercion),
contradicting the claim that every format validator throws a
`ValidationError` on non-string values. -/
theorem format_validators_string_first_counterexample :
    isStringVal (numValFixture.getVal "x") = false ∧
    isAscii numValFixture "x" JSVal.undef = .ok numValFixture ∧
    isStringVal (arrUuidFixture.getVal "x") = false ∧
    isUuid arrUuidFixture "x" JSVal.undef JSVal.undef = .ok arrUuidFixture :=
  ⟨rfl, rfl, rfl, rfl⟩

/-- C8 amended: the format validators `isAlpha`, `isAlphanumeric`,
`isNumeric`, `isBase64`, `isEmail` and `isHexColor` require a string
first, throwing a `ValidationError` for every non-string value before
their format check; `isAscii` and `isUuid` have no such check — they test
the regex against the string coercion of the value (see the
counterexample). -/
theorem format_validators_string_requirement (s : Session) (k : String) (tip : JSVal)
    (emailCk hexCk b64Ck : String → Bool)
    (hf : s.getFlag k = false) (hv : isStringVal (s.getVal k) = false) :
    isAlpha s k tip = .thrown s (.validation (some k)
      (tipOr tip (.str (k ++ " must only contain chars a-z")))) ∧
    isAlphanumeric s k tip = .thrown s (.validation (some k) JSVal.obj) ∧
    isNumeric s k tip = .thrown s (.validation (some k)
      (tipOr tip (.str (k ++ " must must only contain numbers")))) ∧
    isBase64 b64Ck s k tip = .thrown s (.validation (some k)
      (tipOr tip (.str (k ++ " must be base64 encoded")))) ∧
    isEmail emailCk s k tip = .thrown s (.validation (some k)
      (tipOr tip (.str (k ++ " must be a valid email address")))) ∧
    isHexColor hexCk s k tip = .thrown s (.validation (some k)
      (tipOr tip (.str (k ++ " must be a hex color")))) := by
  have h1 : jsTruthy (.str (k ++ " must only contain chars a-z")) = true :=
    jsTruthy_str_append k _ (by simp)
  have h3 : jsTruthy (.str (k ++ " must must only contain numbers")) = true :=
    jsTruthy_str_append k _ (by simp)
  have h4 : jsTruthy (.str (k ++ " must be base64 encoded")) = true :=
    jsTruthy_str_append k _ (by simp)
  have h5 : jsTruthy (.str (k ++ " must be a valid email address")) = true :=
    jsTruthy_str_append k _ (by simp)
  have h6 : jsTruthy (.str (k ++ " must be a hex color")) = true :=
    jsTruthy_str_append k _ (by simp)
  refine ⟨?_, ?_, ?_, ?_, ?_, ?_⟩
  · simp [isAlpha, isString, optionalWrap, isOptionalStep, hf, hv, Outcome.andThen,
      Session.throwErr, tipOr_collapse _ _ _ h1]
  · simp [isAlphanumeric, isString, optionalWrap, isOptionalStep, hf, hv, Outcome.andThen,
      Session.throwErr, tipOr, jsTruthy]
  · simp [isNumeric, isString, optionalWrap, isOptionalStep, hf, hv, Outcome.andThen,
      Session.throwErr, tipOr_collapse _ _ _ h3]
  · simp [isBase64, isString, optionalWrap, isOptionalStep, hf, hv, Outcome.andThen,
      Session.throwErr, tipOr_collapse _ _ _ h4]
  · simp [isEmail, isString, optionalWrap, isOptionalStep, hf, hv, Outcome.andThen,
      Session.throwErr, tipOr_collapse _ _ _ h5]
  · simp [isHexColor, isString, optionalWrap, isOptionalStep, hf, hv, Outcome.andThen,
      Session.throwErr, tipOr_collapse _ _ _ h6]

theorem format_validators_string_requirement_witness :
    isAlpha numValFixture "x" JSVal.undef = .thrown numValFixture (.validation (some "x")
      (tipOr JSVal.undef (.str ("x" ++ " must only contain chars a-z")))) ∧
    isAlphanumeric numValFixture "x" JSVal.undef =
      .thrown numValFixture (.validation (some "x") JSVal.obj) ∧
    isNumeric numValFixture "x" JSVal.undef = .thrown numValFixture (.validation (some "x")
      (tipOr JSVal.undef (.str ("x" ++ " must must only contain numbers")))) ∧
    isBase64 rejectAllCk numValFixture "x" JSVal.undef =
      .thrown numValFixture (.validation (some "x")
        (tipOr JSVal.undef (.str ("x" ++ " must be base64 encoded")))) ∧
    isEmail rejectAllCk numValFixture "x" JSVal.undef =
      .thrown numValFixture (.validation (some "x")
        (tipOr JSVal.undef (.str ("x" ++ " must be a valid email address")))) ∧
    isHexColor rejectAllCk numValFixture "x" JSVal.undef =
      .thrown numValFixture (.validation (some "x")
        (tipOr JSVal.undef (.str ("x" ++ " must be a hex color")))) :=
  format_validators_string_requirement numValFixture "x" JSVal.undef
    rejectAllCk rejectAllCk rejectAllCk rfl rfl

/-- C9: `gt(5)` on a non-number value throws the `better-assert`
assertion fault — which is not a `ValidationError` — with the session
(store included) unchanged at the moment of the throw. -/
theorem gt_nonnumber_assertion_fault (s : Session) (k : String) (tip : JSVal)
    (hf : s.getFlag k = false) (hv : isNumberVal (s.getVal k) = false) :
    gt s k (.num 5) tip = .thrown s .assertionErr ∧
    JSErr.isValidation .assertionErr = false := by
  refine ⟨?_, rfl⟩
  simp [gt, optionalWrap, isOptionalStep, hf, hv]

theorem gt_nonnumber_assertion_fault_witness :
    gt tapFixture "x" (.num 5) JSVal.undef = .thrown tapFixture .assertionErr ∧
    JSErr.isValidation .assertionErr = false :=
  gt_nonnumber_assertion_fault tapFixture "x" JSVal.undef rfl rfl

/-- C10: `isBase64` on the empty string returns the validator without
raising and leaves the store unchanged, whatever the underlying base64
checker would say (in particular for the real checker, which rejects the
empty string). -/
theorem isBase64_empty_string_ok (checker : String → Bool) (s : Session) (k : String)
    (tip : JSVal) (hf : s.getFlag k = false) (hv : s.getVal k = JSVal.str "") :
    isBase64 checker s k tip = .ok s := by
  simp [isBase64, isString, optionalWrap, isOptionalStep, hf, hv, Outcome.andThen,
    isStringVal, jsToString, JSVal.isUndef]

theorem isBase64_empty_string_ok_witness :
    isBase64 rejectAllCk emptyStrFixture "x" JSVal.undef = .ok emptyStrFixture :=
  isBase64_empty_string_ok rejectAllCk emptyStrFixture "x" JSVal.undef rfl rfl
